import Mathlib

/-!
Verification of the dataset-description backend
(`tool_APIs/analysis_app/views.py` and `urls.py`).

The Python handler is embedded shallowly:

* A pandas `DataFrame` becomes `Table`: a row count together with a list of
  named, typed columns, where each column records which of its cells are null.
* JSON values (Python dicts produced by `json.loads` and the dict literals of
  the code) become the inductive `Json`.
* External collaborators that the spec declares opaque — `pd.read_csv`,
  `df.head/describe/info`, the Gemini remote call, `json.loads`,
  `datetime.now`, `df.memory_usage` — are parameters collected in `Env`.
* Exceptions become `Except String` / `Option`; the outer
  `try/except` is the `Except` match in `datasetDescription`.
-/

/-- JSON values, standing in for the Python dict/list/str/int values the
handler builds and parses. -/
inductive Json where
  | null : Json
  | str (s : String) : Json
  | num (n : Int) : Json
  | rat (q : ℚ) : Json
  | arr (elems : List Json) : Json
  | obj (fields : List (String × Json)) : Json

/-- `True` exactly on JSON objects (Python dicts, the only values with a
`.get` method). -/
def Json.isObj : Json → Bool
  | .obj _ => true
  | _ => false

/-- Field lookup on a JSON object; `none` on non-objects or absent keys. -/
def jlookup (j : Json) (key : String) : Option Json :=
  match j with
  | .obj fields => fields.lookup key
  | _ => none

/-- A pandas dtype, split as the handler splits it: numeric dtypes are the
ones `select_dtypes(include=[number])` keeps, `object` is what
`select_dtypes(include=[object])` keeps. -/
inductive DType where
  | numeric (rep : String) : DType
  | object : DType
  | other (rep : String) : DType

/-- The dtype rendered as a string, as `df.dtypes.astype(str)` does. -/
def DType.render : DType → String
  | .numeric rep => rep
  | .object => "object"
  | .other rep => rep

/-- `True` on dtypes selected by `select_dtypes(include=[number])`. -/
def DType.isNum : DType → Bool
  | .numeric _ => true
  | _ => false

/-- `True` on dtypes selected by `select_dtypes(include=[object])`. -/
def DType.isObjDtype : DType → Bool
  | .object => true
  | _ => false

/-- One DataFrame column: its name, dtype and, per row, whether the cell is
null (`df.isnull()` for this column). -/
structure Column where
  name : String
  dtype : DType
  nullMask : List Bool

/-- A pandas DataFrame as the handler observes it: `len(df)` rows and a list
of columns. -/
structure Table where
  nrows : Nat
  columns : List Column

/-- `len(df.columns)`. -/
def Table.ncols (df : Table) : Nat := df.columns.length

/-- `df.empty`: true when either axis has length zero. -/
def Table.isEmpty (df : Table) : Bool := df.nrows == 0 || df.columns.length == 0

/-- `df.columns.tolist()`. -/
def columnNames (df : Table) : List String := df.columns.map Column.name

/-- Missing values in one column: one summand of `df.isnull().sum()`. -/
def missingCount (c : Column) : Nat := c.nullMask.count true

/-- `df.isnull().sum().to_dict()`: per-column missing counts, in column
order. -/
def missingValues (df : Table) : List (String × Nat) :=
  df.columns.map fun c => (c.name, missingCount c)

/-- `df.isnull().sum().sum()`: nulls counted over the whole frame. -/
def totalMissing (df : Table) : Nat :=
  ((df.columns.map Column.nullMask).flatten).count true

/-- `df.select_dtypes(include=[number]).columns.tolist()`. -/
def numericCols (df : Table) : List String :=
  (df.columns.filter fun c => c.dtype.isNum).map Column.name

/-- `df.select_dtypes(include=[object]).columns.tolist()`. -/
def categoricalCols (df : Table) : List String :=
  (df.columns.filter fun c => c.dtype.isObjDtype).map Column.name

/-- `df.dtypes.astype(str).to_dict()`. -/
def columnTypes (df : Table) : List (String × Json) :=
  df.columns.map fun c => (c.name, Json.str c.dtype.render)

/-- Digit groups of three, working over the reversed digit list; helper for
the comma-separated Python number format. -/
def chunk3 : List Char → List (List Char)
  | [] => []
  | a :: b :: c :: rest => [a, b, c] :: chunk3 rest
  | xs => [xs]

/-- Python `f"{n:,}"`: decimal rendering with thousands separators. -/
def fmtComma (n : Nat) : String :=
  let groups := (chunk3 (toString n).toList.reverse).map fun g => String.mk g.reverse
  String.intercalate "," groups.reverse

/-- Python `f"{q:.2f}"` for a nonnegative value, over exact rationals
(float rounding is approximated by rounding half up at the second decimal). -/
def fmt2 (q : ℚ) : String :=
  let n : Int := round (q * 100)
  let i := n / 100
  let f := (n % 100).toNat
  let pad := if f < 10 then "0" else ""
  s!"{i}.{pad}{f}"

/-- Python `needle in hay` substring test. -/
def strContains (hay needle : String) : Bool :=
  (hay.splitOn needle).length > 1

/-- Python code: the `api_status` message chosen from the error text
(rate-limit wording when the text holds "429" or "quota", else a generic
message with the error truncated to 100 characters). -/
def apiStatus (errorMsg : String) : String :=
  if strContains errorMsg "429" || strContains errorMsg.toLower "quota" then
    "Rate limit exceeded. Using fallback analysis."
  else
    let cut := errorMsg.take 100
    s!"API unavailable: {cut}. Using fallback analysis."

/-- The severity word of the fallback description: minimal when
`df.isnull().sum().sum() < len(df) * 0.05`, else significant. Note the
right-hand side is `len(df) * 0.05`: five percent of the ROW count. -/
def severityWord (df : Table) : String :=
  if (totalMissing df : ℚ) < (df.nrows : ℚ) * (0.05 : ℚ) then "minimal"
  else "significant"

/-- Python comma-space join of the first three column names. -/
def joinFirst3 (cols : List String) : String :=
  String.intercalate ", " (cols.take 3)

/-- Trailing ellipsis marker when more than three columns exist. -/
def ellipsis3 (cols : List String) : String :=
  if cols.length > 3 then ", ..." else ""

/-- The fallback `dataset_description` string, template from the source. -/
def fallbackDescription (df : Table) (errorMsg : String) : String :=
  let rows := df.nrows
  let cols := df.ncols
  let ncount := (numericCols df).length
  let njoin := joinFirst3 (numericCols df)
  let ndots := ellipsis3 (numericCols df)
  let ccount := (categoricalCols df).length
  let cjoin := joinFirst3 (categoricalCols df)
  let cdots := ellipsis3 (categoricalCols df)
  let sev := severityWord df
  let note := apiStatus errorMsg
  s!"This dataset contains {rows} records across {cols} features. " ++
    s!"It includes {ncount} numerical columns ({njoin}{ndots}) " ++
    s!"and {ccount} categorical columns ({cjoin}{cdots}). " ++
    s!"The dataset shows {sev} missing data patterns. " ++
    s!"Note: {note}"

/-- `df.isnull().sum().sum() / (len(df) * len(df.columns)) * 100`, over exact
rationals (division by zero yields 0 here; `pctMissingChecked` models the
failure case). -/
def pctMissing (df : Table) : ℚ :=
  (totalMissing df : ℚ) / ((df.nrows * df.ncols : ℕ) : ℚ) * 100

/-- The same percentage, undefined when the denominator `len(df) *
len(df.columns)` is zero, as a Python division would be. -/
def pctMissingChecked (df : Table) : Option ℚ :=
  if ((df.nrows * df.ncols : ℕ) : ℚ) = 0 then none else some (pctMissing df)

/-- The fallback `key_insights` list, parametrised by the missing-value
percentage. -/
def fallbackInsightsWith (df : Table) (q : ℚ) : List String :=
  let records := fmtComma df.nrows
  let feats := df.ncols
  let ncount := (numericCols df).length
  let ccount := (categoricalCols df).length
  let miss := fmtComma (totalMissing df)
  let pct := fmt2 q
  [s!"Total records: {records}",
   s!"Total features: {feats}",
   s!"Numerical features: {ncount}",
   s!"Categorical features: {ccount}",
   s!"Missing values: {miss} ({pct}%)"]

/-- The fallback `key_insights` list as the source computes it. -/
def fallbackInsights (df : Table) : List String :=
  fallbackInsightsWith df (pctMissing df)

/-- `missing_summary[missing_summary > 0].to_dict()`: columns with at least
one missing value, with their counts, in column order. -/
def missingColsOf (df : Table) : List (String × Nat) :=
  (df.columns.filter fun c => 0 < missingCount c).map fun c =>
    (c.name, missingCount c)

/-- One `"<column>: <count> missing"` issue string. -/
def issueStr (p : String × Nat) : String :=
  let c := p.1
  let n := p.2
  s!"{c}: {n} missing"

/-- The fallback `data_quality.completeness` string. -/
def fallbackCompleteness (df : Table) : String :=
  if missingColsOf df = [] then "No missing values detected"
  else
    let k := (missingColsOf df).length
    s!"Missing values found in {k} columns"

/-- The fallback `data_quality.potential_issues` list: the first five issue
strings, or a fixed singleton when nothing is missing. -/
def fallbackIssues (df : Table) : List String :=
  if missingColsOf df = [] then ["Data appears complete"]
  else ((missingColsOf df).take 5).map issueStr

/-- The fallback `data_quality` object. -/
def fallbackQualityJson (df : Table) : Json :=
  .obj [("completeness", .str (fallbackCompleteness df)),
        ("potential_issues", .arr ((fallbackIssues df).map .str))]

/-- The fallback `recommendations` list: three fixed strings. -/
def fallbackRecommendations : List String :=
  ["Examine distribution of numerical features for outliers",
   "Check categorical variables for consistency",
   "Consider feature engineering based on domain knowledge"]

/-- The dict returned by the `except` branch of `analyze_with_gemini`,
parametrised by the missing-value percentage. -/
def fallbackAnalysisWith (df : Table) (errorMsg : String) (q : ℚ) : Json :=
  .obj [("dataset_description", .str (fallbackDescription df errorMsg)),
        ("key_insights", .arr ((fallbackInsightsWith df q).map .str)),
        ("data_quality", fallbackQualityJson df),
        ("recommendations", .arr (fallbackRecommendations.map .str))]

/-- The fallback analysis as the source computes it. -/
def fallbackAnalysis (df : Table) (errorMsg : String) : Json :=
  fallbackAnalysisWith df errorMsg (pctMissing df)

/-- The fallback analysis with the percentage division checked: `none` when
the division in the fifth insight would divide by zero. -/
def fallbackAnalysisChecked (df : Table) (errorMsg : String) : Option Json :=
  (pctMissingChecked df).map (fallbackAnalysisWith df errorMsg)

/-- The code-fence stripping applied to the model reply (`response.text
.strip()` followed by the two `startswith`/`replace` branches). -/
def stripFences (raw : String) : String :=
  let s := raw.trim
  if s.startsWith "```json" then
    ((s.replace "```json" "").replace "```" "").trim
  else if s.startsWith "```" then
    (s.replace "```" "").trim
  else s

/-- The three text blocks of `get_dataset_info`. -/
structure DatasetInfo where
  head : String
  describe : String
  info : String

/-- The opaque external collaborators of the handler: CSV parsing, the three
pandas renderings, the remote model call (prompt to reply text, or an
exception message), `json.loads`, the clock, and the deep memory usage in
bytes. -/
structure Env where
  parseCsv : String → Except String Table
  headStr : Table → String
  describeStr : Table → String
  infoStr : Table → String
  aiReply : String → Except String String
  jsonParse : String → Except String Json
  now : String
  memBytes : Table → Nat

/-- `get_dataset_info(df)`. -/
def getDatasetInfo (env : Env) (df : Table) : DatasetInfo :=
  ⟨env.headStr df, env.describeStr df, env.infoStr df⟩

/-- The prompt template of `analyze_with_gemini`, with the three summary
blocks spliced in verbatim. -/
def buildPrompt (di : DatasetInfo) : String :=
  let h := di.head
  let d := di.describe
  let i := di.info
  s!"\nYou are a data analyst. Analyze the following dataset information and provide a comprehensive description.\n\nDataset Head (first 5 rows):\n{h}\n\nDataset Description (statistical summary):\n{d}\n\nDataset Info (column types and non-null counts):\n{i}\n\nPlease provide a detailed analysis in the following JSON format:\n\x7b\n    \"dataset_description\": \"A comprehensive 2-3 paragraph description of the dataset...\",\n    \"key_insights\": [\"List 3-5 key insights about the data\"],\n    \"data_quality\": \x7b\"completeness\": \"Assessment of missing values\", \"potential_issues\": [\"List any potential data quality issues\"]\x7d,\n    \"recommendations\": [\"List 2-3 recommendations for analysis or data cleaning\"]\n\x7d\n\nReturn ONLY the JSON object, no additional text or markdown.\n"

/-- `analyze_with_gemini(dataset_info, df)`: call the model, strip fences,
parse JSON; any failure in that path falls into the deterministic fallback
with the exception text. -/
def analyzeWithGemini (env : Env) (di : DatasetInfo) (df : Table) : Json :=
  match env.aiReply (buildPrompt di) with
  | .error e => fallbackAnalysis df e
  | .ok text =>
    match env.jsonParse (stripFences text) with
    | .error e => fallbackAnalysis df e
    | .ok j => j

/-- Python `round(x, 2)` over exact rationals. -/
def roundTo2 (q : ℚ) : ℚ := (round (q * 100) : ℚ) / 100

/-- `round(df.memory_usage(deep=True).sum() / 1024**2, 2)`. -/
def memoryUsageMb (env : Env) (df : Table) : ℚ :=
  roundTo2 ((env.memBytes df : ℚ) / (1024 * 1024))

/-- The `metrics` dict of the handler (lines 199-209 of the source). -/
def metricsJson (env : Env) (df : Table) : Json :=
  .obj [("total_rows", .num df.nrows),
        ("total_columns", .num df.ncols),
        ("column_names", .arr ((columnNames df).map .str)),
        ("column_types", .obj (columnTypes df)),
        ("missing_values",
          .obj ((missingValues df).map fun p => (p.1, Json.num p.2))),
        ("total_missing", .num (totalMissing df)),
        ("memory_usage_mb", .rat (memoryUsageMb env df)),
        ("numeric_columns", .arr ((numericCols df).map .str)),
        ("categorical_columns", .arr ((categoricalCols df).map .str))]

/-- A `{error: ...}` response body. -/
def errBody (s : String) : Json := .obj [("error", .str s)]

/-- Python `analysis.get(key, default)`: defaulted lookup on dicts, an
`AttributeError` on every other value. -/
def dictGet (j : Json) (key : String) (dflt : Json) : Except String Json :=
  match j with
  | .obj fields => .ok ((fields.lookup key).getD dflt)
  | _ => .error "object has no attribute get"

/-- Assembly of the success body (lines 212-221): the four narrative fields
are read with defaulted access, then combined with status, timestamp,
filename and metrics. -/
def assembleBody (analysis metrics : Json) (filename now : String) :
    Except String Json := do
  let dd ← dictGet analysis "dataset_description" (.str "")
  let ki ← dictGet analysis "key_insights" (.arr [])
  let dq ← dictGet analysis "data_quality" (.obj [])
  let rc ← dictGet analysis "recommendations" (.arr [])
  pure (.obj [("status", .str "success"),
              ("timestamp", .str now),
              ("filename", .str filename),
              ("dataset_description", dd),
              ("key_insights", ki),
              ("data_quality", dq),
              ("recommendations", rc),
              ("metrics", metrics)])

/-- Python `name.endswith(tail)`, spelled over character lists. -/
def strEndsWith (s tail : String) : Bool :=
  let sl := s.toList
  let tl := tail.toList
  sl.drop (sl.length - tl.length) == tl

/-- The static body answering a GET request. -/
def helpBody : Json :=
  .obj [("message", .str "Upload a CSV file to get dataset description"),
        ("instructions", .str "Use POST method with form-data and attach a CSV file with key \"file\""),
        ("endpoint", .str "/api/analysis/dataset-description/"),
        ("method", .str "POST"),
        ("content_type", .str "multipart/form-data"),
        ("example_curl", .str "curl -X POST http://localhost:8000/api/analysis/dataset-description/ -F \"file=@your_file.csv\"")]

/-- One uploaded file part: its client-supplied filename and raw content. -/
structure FilePart where
  name : String
  content : String

/-- The request methods the view accepts (`api_view([GET, POST])`). -/
inductive Method where
  | get : Method
  | post : Method

/-- An incoming request: method and the multipart file fields
(`request.FILES`). -/
structure Request where
  method : Method
  files : List (String × FilePart)

/-- An HTTP response: status code and JSON body. -/
structure HttpResponse where
  statusCode : Nat
  body : Json

/-- The `dataset_description` view. The second component records whether the
AI path (`analyze_with_gemini`) was invoked. The outer `try/except` of the
source is the final `match`: the only modelled exception inside it is the
`AttributeError` of a defaulted `.get` on a non-dict analysis. -/
def datasetDescription (env : Env) (req : Request) : HttpResponse × Bool :=
  match req.method with
  | .get => (⟨200, helpBody⟩, false)
  | .post =>
    match req.files.lookup "file" with
    | none =>
      (⟨400, errBody "No file uploaded. Please upload a CSV file."⟩, false)
    | some csvFile =>
      if ¬ strEndsWith csvFile.name ".csv" then
        (⟨400, errBody "Invalid file type. Please upload a CSV file."⟩, false)
      else
        match env.parseCsv csvFile.content with
        | .error e =>
          (⟨400, errBody ("Error reading CSV file: " ++ e)⟩, false)
        | .ok df =>
          if df.isEmpty then
            (⟨400, errBody "The uploaded CSV file is empty."⟩, false)
          else
            let di := getDatasetInfo env df
            let analysis := analyzeWithGemini env di df
            let metrics := metricsJson env df
            match assembleBody analysis metrics csvFile.name env.now with
            | .ok body => (⟨200, body⟩, true)
            | .error e => (⟨500, errBody ("An error occurred: " ++ e)⟩, true)

/-- Concrete two-column table used by witnesses: three rows, one numeric
column, one text column with one missing cell. -/
def tWit : Table :=
  ⟨3, [⟨"a", .numeric "int64", [false, false, false]⟩,
       ⟨"b", .object, [false, true, false]⟩]⟩

/-- Concrete table refuting the cells-based severity threshold: 20 rows, two
columns, exactly one missing value. -/
def tTwenty : Table :=
  ⟨20, [⟨"a", .numeric "int64", List.replicate 20 false⟩,
        ⟨"b", .object, List.replicate 19 false ++ [true]⟩]⟩

/-- C3: `metrics.total_missing` equals the sum of the per-column counts of
`metrics.missing_values`. -/
theorem total_missing_eq_sum_missing_values (df : Table) :
    totalMissing df = ((missingValues df).map Prod.snd).sum := by
  unfold totalMissing missingValues
  rw [List.count_flatten]
  simp only [List.map_map]
  congr 1

/-- C8: the fallback analysis is a deterministic pure function of the table
and the failure message. -/
theorem fallback_deterministic (df₁ df₂ : Table) (m₁ m₂ : String)
    (hdf : df₁ = df₂) (hm : m₁ = m₂) :
    fallbackAnalysis df₁ m₁ = fallbackAnalysis df₂ m₂ := by
  rw [hdf, hm]

theorem fallback_deterministic_witness :
    fallbackAnalysis tWit "err" = fallbackAnalysis tWit "err" :=
  fallback_deterministic tWit tWit "err" "err" rfl rfl

/-- C7: on a non-empty table the fallback is total; in particular the
missing-percentage division never divides by zero, so the checked fallback
agrees with the actual one. -/
theorem fallback_total_on_nonempty (df : Table) (m : String)
    (h : df.isEmpty = false) :
    fallbackAnalysisChecked df m = some (fallbackAnalysis df m) := by
  have h2 : df.nrows ≠ 0 ∧ df.columns.length ≠ 0 := by
    constructor <;> intro h0 <;> simp [Table.isEmpty, h0] at h
  unfold fallbackAnalysisChecked pctMissingChecked
  rw [if_neg]
  · rfl
  · simp [Table.ncols, h2.1, h2.2]

theorem fallback_total_on_nonempty_witness :
    fallbackAnalysisChecked tWit "err" = some (fallbackAnalysis tWit "err") :=
  fallback_total_on_nonempty tWit "err" rfl

/-- C2, counterexample: on a 20-row, 2-column table with exactly one missing
value, one missing value is below 5% of the 40 cells, yet the severity word
is "significant" — the code compares against 5% of the row count. -/
theorem severity_cells_threshold_cx :
    ¬ (severityWord tTwenty = "minimal" ↔
       (totalMissing tTwenty : ℚ) <
         ((tTwenty.nrows * tTwenty.ncols : ℕ) : ℚ) * (0.05 : ℚ)) := by
  have hm : ((totalMissing tTwenty : ℚ)) = 1 := by
    have h1 : totalMissing tTwenty = 1 := by decide
    rw [h1]; norm_num
  have hsev : severityWord tTwenty = "significant" := by
    unfold severityWord
    rw [hm]
    norm_num [tTwenty]
  intro hiff
  have h2 : (totalMissing tTwenty : ℚ) <
      ((tTwenty.nrows * tTwenty.ncols : ℕ) : ℚ) * (0.05 : ℚ) := by
    rw [hm]; norm_num [tTwenty, Table.ncols]
  exact absurd (hiff.mpr h2) (by rw [hsev]; decide)

/-- C2, amended: the severity word is "minimal" exactly when the total
missing count is below 5% of the number of rows. -/
theorem severity_rows_threshold (df : Table) (_h : df.isEmpty = false) :
    severityWord df = "minimal" ↔
      (totalMissing df : ℚ) < (df.nrows : ℚ) * (0.05 : ℚ) := by
  unfold severityWord
  by_cases hc : (totalMissing df : ℚ) < (df.nrows : ℚ) * (0.05 : ℚ) <;>
    simp [hc]

theorem severity_rows_threshold_witness :
    severityWord tTwenty = "minimal" ↔
      (totalMissing tTwenty : ℚ) < (tTwenty.nrows : ℚ) * (0.05 : ℚ) :=
  severity_rows_threshold tTwenty rfl

/-- C6: shape of the fallback narrative: five insight strings, three fixed
recommendations, and potential issues that are either at most five
`"<column>: <count> missing"` strings or the fixed completeness singleton. -/
theorem fallback_narrative_shape (df : Table) (e : String)
    (_h : df.isEmpty = false) :
    jlookup (fallbackAnalysis df e) "key_insights" =
        some (.arr ((fallbackInsights df).map .str)) ∧
    (fallbackInsights df).length = 5 ∧
    jlookup (fallbackAnalysis df e) "recommendations" =
        some (.arr (fallbackRecommendations.map .str)) ∧
    fallbackRecommendations.length = 3 ∧
    jlookup (fallbackAnalysis df e) "data_quality" =
        some (fallbackQualityJson df) ∧
    (missingColsOf df = [] → fallbackIssues df = ["Data appears complete"]) ∧
    (missingColsOf df ≠ [] →
      (fallbackIssues df).length ≤ 5 ∧
      ∀ s ∈ fallbackIssues df, ∃ p, p ∈ missingColsOf df ∧ s = issueStr p) := by
  refine ⟨rfl, rfl, rfl, rfl, rfl, ?_, ?_⟩
  · intro h0
    simp [fallbackIssues, h0]
  · intro h0
    unfold fallbackIssues
    rw [if_neg h0]
    constructor
    · simp [List.length_take]
    · intro s hs
      obtain ⟨p, hp, rfl⟩ := List.mem_map.1 hs
      exact ⟨p, List.take_subset 5 _ hp, rfl⟩

theorem fallback_narrative_shape_witness :
    jlookup (fallbackAnalysis tWit "err") "key_insights" =
        some (.arr ((fallbackInsights tWit).map .str)) ∧
    (fallbackInsights tWit).length = 5 ∧
    jlookup (fallbackAnalysis tWit "err") "recommendations" =
        some (.arr (fallbackRecommendations.map .str)) ∧
    fallbackRecommendations.length = 3 ∧
    jlookup (fallbackAnalysis tWit "err") "data_quality" =
        some (fallbackQualityJson tWit) ∧
    (missingColsOf tWit = [] → fallbackIssues tWit = ["Data appears complete"]) ∧
    (missingColsOf tWit ≠ [] →
      (fallbackIssues tWit).length ≤ 5 ∧
      ∀ s ∈ fallbackIssues tWit, ∃ p, p ∈ missingColsOf tWit ∧ s = issueStr p) :=
  fallback_narrative_shape tWit "err" rfl

/-- C4: when every column is numeric or text and the parsed column names are
distinct (as `read_csv` guarantees by mangling duplicates), the numeric and
categorical column lists partition the column names. -/
theorem numeric_categorical_partition (df : Table)
    (hnd : (columnNames df).Nodup)
    (hall : ∀ c ∈ df.columns,
      c.dtype.isNum = true ∨ c.dtype.isObjDtype = true) :
    (∀ x, x ∈ columnNames df ↔ (x ∈ numericCols df ∨ x ∈ categoricalCols df)) ∧
    (∀ x, x ∈ numericCols df → x ∉ categoricalCols df) := by
  constructor
  · intro x
    constructor
    · intro hx
      obtain ⟨c, hc, rfl⟩ := List.mem_map.1 hx
      rcases hall c hc with hdt | hdt
      · exact Or.inl (List.mem_map.2 ⟨c, List.mem_filter.2 ⟨hc, hdt⟩, rfl⟩)
      · exact Or.inr (List.mem_map.2 ⟨c, List.mem_filter.2 ⟨hc, hdt⟩, rfl⟩)
    · rintro (hx | hx) <;> obtain ⟨c, hc, rfl⟩ := List.mem_map.1 hx <;>
        exact List.mem_map.2 ⟨c, (List.mem_filter.1 hc).1, rfl⟩
  · intro x h1 h2
    obtain ⟨c1, hc1, he1⟩ := List.mem_map.1 h1
    obtain ⟨c2, hc2, he2⟩ := List.mem_map.1 h2
    obtain ⟨hm1, hd1⟩ := List.mem_filter.1 hc1
    obtain ⟨hm2, hd2⟩ := List.mem_filter.1 hc2
    have hne : c1 ≠ c2 := by
      intro hce
      rw [hce] at hd1
      cases hdt : c2.dtype <;> rw [hdt] at hd1 hd2 <;>
        simp [DType.isNum, DType.isObjDtype] at hd1 hd2
    exact hne (List.inj_on_of_nodup_map hnd hm1 hm2 (he1.trans he2.symm))

theorem numeric_categorical_partition_witness :
    (∀ x, x ∈ columnNames tWit ↔
      (x ∈ numericCols tWit ∨ x ∈ categoricalCols tWit)) ∧
    (∀ x, x ∈ numericCols tWit → x ∉ categoricalCols tWit) :=
  numeric_categorical_partition tWit (by decide) (by decide)

/-- C5: each of the four validation failures yields a 400 response whose
body is a single error string, and the AI path is never invoked. -/
theorem validation_failures_return_400_no_ai (env : Env) (req : Request)
    (hm : req.method = .post)
    (hv : req.files.lookup "file" = none
        ∨ (∃ f, req.files.lookup "file" = some f ∧
             strEndsWith f.name ".csv" = false)
        ∨ (∃ f e, req.files.lookup "file" = some f ∧
             strEndsWith f.name ".csv" = true ∧ env.parseCsv f.content = .error e)
        ∨ (∃ f df, req.files.lookup "file" = some f ∧
             strEndsWith f.name ".csv" = true ∧ env.parseCsv f.content = .ok df ∧
             df.isEmpty = true)) :
    ∃ s, datasetDescription env req = (⟨400, errBody s⟩, false) := by
  rcases hv with h | ⟨f, hf, hext⟩ | ⟨f, e, hf, hext, hp⟩ |
    ⟨f, df, hf, hext, hp, he⟩
  · exact ⟨"No file uploaded. Please upload a CSV file.",
      by unfold datasetDescription; rw [hm]; simp [h]⟩
  · exact ⟨"Invalid file type. Please upload a CSV file.",
      by unfold datasetDescription; rw [hm]; simp [hf, hext]⟩
  · exact ⟨"Error reading CSV file: " ++ e,
      by unfold datasetDescription; rw [hm]; simp [hf, hext, hp]⟩
  · exact ⟨"The uploaded CSV file is empty.",
      by unfold datasetDescription; rw [hm]; simp [hf, hext, hp, he]⟩

theorem validation_failures_return_400_no_ai_witness :
    ∃ s, datasetDescription
        ⟨fun _ => .ok tWit, fun _ => "", fun _ => "", fun _ => "",
         fun _ => .error "down", fun _ => .error "bad", "ts", fun _ => 0⟩
        ⟨.post, [("file", ⟨"data.txt", "a,b"⟩)]⟩ =
      (⟨400, errBody s⟩, false) :=
  validation_failures_return_400_no_ai _ _ rfl
    (Or.inr (Or.inl ⟨⟨"data.txt", "a,b"⟩, rfl, by decide⟩))

/-- Reduction of the view on a validated upload: everything after validation
is the assembly step on the AI-or-fallback analysis. -/
theorem datasetDescription_valid_path (env : Env) (req : Request)
    (f : FilePart) (df : Table)
    (hm : req.method = .post)
    (hf : req.files.lookup "file" = some f)
    (hext : strEndsWith f.name ".csv" = true)
    (hp : env.parseCsv f.content = .ok df)
    (hne : df.isEmpty = false) :
    datasetDescription env req =
      match assembleBody (analyzeWithGemini env (getDatasetInfo env df) df)
          (metricsJson env df) f.name env.now with
      | .ok body => (⟨200, body⟩, true)
      | .error e => (⟨500, errBody ("An error occurred: " ++ e)⟩, true) := by
  unfold datasetDescription
  rw [hm]
  simp [hf, hext, hp, hne]

/-- Assembly applied to the fallback dict succeeds and keeps its four fields
verbatim. -/
theorem assembleBody_fallback (df : Table) (e : String) (m : Json)
    (fn now : String) :
    assembleBody (fallbackAnalysis df e) m fn now =
      .ok (.obj [("status", .str "success"),
                 ("timestamp", .str now),
                 ("filename", .str fn),
                 ("dataset_description", .str (fallbackDescription df e)),
                 ("key_insights", .arr ((fallbackInsights df).map .str)),
                 ("data_quality", fallbackQualityJson df),
                 ("recommendations", .arr (fallbackRecommendations.map .str)),
                 ("metrics", m)]) := rfl

/-- Assembly applied to any parsed JSON object succeeds, with defaulted
field access. -/
theorem assembleBody_obj (fs : List (String × Json)) (m : Json)
    (fn now : String) :
    assembleBody (.obj fs) m fn now =
      .ok (.obj [("status", .str "success"),
                 ("timestamp", .str now),
                 ("filename", .str fn),
                 ("dataset_description",
                   (fs.lookup "dataset_description").getD (.str "")),
                 ("key_insights", (fs.lookup "key_insights").getD (.arr [])),
                 ("data_quality", (fs.lookup "data_quality").getD (.obj [])),
                 ("recommendations",
                   (fs.lookup "recommendations").getD (.arr [])),
                 ("metrics", m)]) := rfl

/-- Assembly applied to a non-dict analysis raises the `AttributeError` of
`.get`. -/
theorem assembleBody_nonobj (j : Json) (hobj : j.isObj = false) (m : Json)
    (fn now : String) :
    assembleBody j m fn now = .error "object has no attribute get" := by
  cases j <;> try rfl
  simp [Json.isObj] at hobj

/-- C1: an AI-path failure (remote error or JSON-parse error) on a valid
non-empty upload is absorbed: the response is 200 with status "success" and
the four narrative fields are exactly the deterministic fallback. -/
theorem ai_failure_fully_absorbed (env : Env) (req : Request) (f : FilePart)
    (df : Table)
    (hm : req.method = .post)
    (hf : req.files.lookup "file" = some f)
    (hext : strEndsWith f.name ".csv" = true)
    (hp : env.parseCsv f.content = .ok df)
    (hne : df.isEmpty = false)
    (hai : (∃ e, env.aiReply (buildPrompt (getDatasetInfo env df)) = .error e)
         ∨ (∃ t e, env.aiReply (buildPrompt (getDatasetInfo env df)) = .ok t
              ∧ env.jsonParse (stripFences t) = .error e)) :
    ∃ msg,
      (datasetDescription env req).1.statusCode = 200 ∧
      jlookup (datasetDescription env req).1.body "status" =
        some (.str "success") ∧
      jlookup (datasetDescription env req).1.body "dataset_description" =
        some (.str (fallbackDescription df msg)) ∧
      jlookup (datasetDescription env req).1.body "key_insights" =
        some (.arr ((fallbackInsights df).map .str)) ∧
      jlookup (datasetDescription env req).1.body "data_quality" =
        some (fallbackQualityJson df) ∧
      jlookup (datasetDescription env req).1.body "recommendations" =
        some (.arr (fallbackRecommendations.map .str)) := by
  have hred := datasetDescription_valid_path env req f df hm hf hext hp hne
  rcases hai with ⟨e, he⟩ | ⟨t, e, ht, he⟩
  · have han : analyzeWithGemini env (getDatasetInfo env df) df =
        fallbackAnalysis df e := by
      unfold analyzeWithGemini; simp only [he]
    refine ⟨e, ?_, ?_, ?_, ?_, ?_, ?_⟩ <;>
      rw [hred, han, assembleBody_fallback] <;> rfl
  · have han : analyzeWithGemini env (getDatasetInfo env df) df =
        fallbackAnalysis df e := by
      unfold analyzeWithGemini; simp only [ht, he]
    refine ⟨e, ?_, ?_, ?_, ?_, ?_, ?_⟩ <;>
      rw [hred, han, assembleBody_fallback] <;> rfl

/-- Environment used by the handler-level witnesses: the CSV parser yields
the witness table and the remote AI call fails. -/
def envDown : Env :=
  ⟨fun _ => .ok tWit, fun _ => "H", fun _ => "D", fun _ => "I",
   fun _ => .error "boom", fun _ => .error "parse", "ts", fun _ => 64⟩

/-- Request used by the handler-level witnesses. -/
def reqCsv : Request := ⟨.post, [("file", ⟨"data.csv", "a,b\n1,x\n2,\n3,z\n"⟩)]⟩

theorem ai_failure_fully_absorbed_witness :
    ∃ msg,
      (datasetDescription envDown reqCsv).1.statusCode = 200 ∧
      jlookup (datasetDescription envDown reqCsv).1.body "status" =
        some (.str "success") ∧
      jlookup (datasetDescription envDown reqCsv).1.body "dataset_description" =
        some (.str (fallbackDescription tWit msg)) ∧
      jlookup (datasetDescription envDown reqCsv).1.body "key_insights" =
        some (.arr ((fallbackInsights tWit).map .str)) ∧
      jlookup (datasetDescription envDown reqCsv).1.body "data_quality" =
        some (fallbackQualityJson tWit) ∧
      jlookup (datasetDescription envDown reqCsv).1.body "recommendations" =
        some (.arr (fallbackRecommendations.map .str)) :=
  ai_failure_fully_absorbed envDown reqCsv ⟨"data.csv", "a,b\n1,x\n2,\n3,z\n"⟩
    tWit rfl rfl (by decide) rfl rfl (Or.inl ⟨"boom", rfl⟩)

/-- C9: when the AI path yields a JSON object, assembly succeeds with 200,
and each of the four narrative fields that is absent from the object
defaults to the empty string/list/object. -/
theorem assembly_defaults_missing_fields (env : Env) (req : Request)
    (f : FilePart) (df : Table) (t : String) (fs : List (String × Json))
    (hm : req.method = .post)
    (hf : req.files.lookup "file" = some f)
    (hext : strEndsWith f.name ".csv" = true)
    (hp : env.parseCsv f.content = .ok df)
    (hne : df.isEmpty = false)
    (hai : env.aiReply (buildPrompt (getDatasetInfo env df)) = .ok t)
    (hj : env.jsonParse (stripFences t) = .ok (.obj fs)) :
    (datasetDescription env req).1.statusCode = 200 ∧
    (fs.lookup "dataset_description" = none →
      jlookup (datasetDescription env req).1.body "dataset_description" =
        some (.str "")) ∧
    (fs.lookup "key_insights" = none →
      jlookup (datasetDescription env req).1.body "key_insights" =
        some (.arr [])) ∧
    (fs.lookup "data_quality" = none →
      jlookup (datasetDescription env req).1.body "data_quality" =
        some (.obj [])) ∧
    (fs.lookup "recommendations" = none →
      jlookup (datasetDescription env req).1.body "recommendations" =
        some (.arr [])) := by
  have hred := datasetDescription_valid_path env req f df hm hf hext hp hne
  have han : analyzeWithGemini env (getDatasetInfo env df) df = .obj fs := by
    unfold analyzeWithGemini; simp only [hai, hj]
  refine ⟨?_, ?_, ?_, ?_, ?_⟩
  · rw [hred, han, assembleBody_obj]
  all_goals intro h0
  all_goals rw [hred, han, assembleBody_obj]
  all_goals simp [jlookup, List.lookup, h0]

theorem assembly_defaults_missing_fields_witness :
    (datasetDescription
        ⟨fun _ => .ok tWit, fun _ => "H", fun _ => "D", fun _ => "I",
         fun _ => .ok "\x7b\x7d", fun _ => .ok (.obj []), "ts", fun _ => 64⟩
        reqCsv).1.statusCode = 200 ∧
    (([] : List (String × Json)).lookup "dataset_description" = none →
      jlookup (datasetDescription
        ⟨fun _ => .ok tWit, fun _ => "H", fun _ => "D", fun _ => "I",
         fun _ => .ok "\x7b\x7d", fun _ => .ok (.obj []), "ts", fun _ => 64⟩
        reqCsv).1.body "dataset_description" = some (.str "")) ∧
    (([] : List (String × Json)).lookup "key_insights" = none →
      jlookup (datasetDescription
        ⟨fun _ => .ok tWit, fun _ => "H", fun _ => "D", fun _ => "I",
         fun _ => .ok "\x7b\x7d", fun _ => .ok (.obj []), "ts", fun _ => 64⟩
        reqCsv).1.body "key_insights" = some (.arr [])) ∧
    (([] : List (String × Json)).lookup "data_quality" = none →
      jlookup (datasetDescription
        ⟨fun _ => .ok tWit, fun _ => "H", fun _ => "D", fun _ => "I",
         fun _ => .ok "\x7b\x7d", fun _ => .ok (.obj []), "ts", fun _ => 64⟩
        reqCsv).1.body "data_quality" = some (.obj [])) ∧
    (([] : List (String × Json)).lookup "recommendations" = none →
      jlookup (datasetDescription
        ⟨fun _ => .ok tWit, fun _ => "H", fun _ => "D", fun _ => "I",
         fun _ => .ok "\x7b\x7d", fun _ => .ok (.obj []), "ts", fun _ => 64⟩
        reqCsv).1.body "recommendations" = some (.arr [])) :=
  assembly_defaults_missing_fields _ reqCsv ⟨"data.csv", "a,b\n1,x\n2,\n3,z\n"⟩
    tWit "{}" [] rfl rfl (by decide) rfl rfl rfl rfl

/-- C10: if the AI reply parses as JSON that is not an object, the defaulted
field access raises, the outer handler catches, and the response is a 500
with an error body — not a fallback success. -/
theorem non_object_ai_json_gives_500 (env : Env) (req : Request)
    (f : FilePart) (df : Table) (t : String) (j : Json)
    (hm : req.method = .post)
    (hf : req.files.lookup "file" = some f)
    (hext : strEndsWith f.name ".csv" = true)
    (hp : env.parseCsv f.content = .ok df)
    (hne : df.isEmpty = false)
    (hai : env.aiReply (buildPrompt (getDatasetInfo env df)) = .ok t)
    (hj : env.jsonParse (stripFences t) = .ok j)
    (hobj : j.isObj = false) :
    (datasetDescription env req).1.statusCode = 500 ∧
    ∃ s, (datasetDescription env req).1.body = errBody s := by
  have hred := datasetDescription_valid_path env req f df hm hf hext hp hne
  have han : analyzeWithGemini env (getDatasetInfo env df) df = j := by
    unfold analyzeWithGemini; simp only [hai, hj]
  rw [hred, han, assembleBody_nonobj j hobj]
  exact ⟨rfl, _, rfl⟩

theorem non_object_ai_json_gives_500_witness :
    (datasetDescription
        ⟨fun _ => .ok tWit, fun _ => "H", fun _ => "D", fun _ => "I",
         fun _ => .ok "[1]", fun _ => .ok (.arr [.num 1]), "ts", fun _ => 64⟩
        reqCsv).1.statusCode = 500 ∧
    ∃ s, (datasetDescription
        ⟨fun _ => .ok tWit, fun _ => "H", fun _ => "D", fun _ => "I",
         fun _ => .ok "[1]", fun _ => .ok (.arr [.num 1]), "ts", fun _ => 64⟩
        reqCsv).1.body = errBody s :=
  non_object_ai_json_gives_500 _ reqCsv ⟨"data.csv", "a,b\n1,x\n2,\n3,z\n"⟩
    tWit "[1]" (.arr [.num 1]) rfl rfl (by decide) rfl rfl rfl rfl rfl
